/-
Verification of the dual-signature core of wdk-core.

This file gives a shallow embedding, in Lean 4, of the dual-signature
subsystem of the repository:

  * src/crypto/dual-key-derivation.js  (DualKeyDerivation)
  * src/crypto/mldsa-signer.js         (MLDSASigner)
  * src/crypto/ecdsa-signer.js         (ECDSASigner)
  * src/protocols/dual-signature-protocol.js (DualSignatureProtocol)

and proves, or refutes, the claims of the specification against it.

Modelling conventions
  * A JavaScript byte (an entry of a Uint8Array) is a value of Fin 256;
    a Uint8Array is a List of such bytes.
  * Stateful classes become structures; methods become functions that
    take and return the structure.  A JavaScript method that can throw
    becomes an Except String valued function; the thrown message is the
    error payload.
  * External cryptographic primitives (BIP-32/BIP-39 derivation, sha256,
    sha3, shake256, keccak256, secp256k1 and ML-DSA key generation) are
    the fields of a Primitives structure that every embedded function
    takes as its first argument; the spec treats them as audited black
    boxes reached through narrow interfaces, and the claims quantify
    over them.
  * A field that a source object literal does not set is modelled as an
    Option field whose value is none (reading an absent property in
    JavaScript yields undefined).
  * Wall-clock data (the timestamp fields produced by Date.now()) is not
    modelled; no claim mentions it.
-/

import Mathlib

/-! ## Bytes and hex encoding -/

/-- A JavaScript byte: an entry of a Uint8Array. -/
abbrev JByte := Fin 256

/-- A Uint8Array. -/
abbrev JBytes := List JByte

/-- The lowercase hex digit for a value below 16 (mirrors the lookup table
used by bytesToHex in the hashes library). -/
def hexDigitChar (n : Nat) : Char :=
  if n < 10 then Char.ofNat (48 + n) else Char.ofNat (87 + n)

/-- The two hex characters of one byte. -/
def byteToHexChars (b : JByte) : List Char :=
  [hexDigitChar (b.val / 16), hexDigitChar (b.val % 16)]

/-- bytesToHex from the hashes library applied to an actual byte array:
each byte becomes two lowercase hex characters. -/
def jsBytesToHex (l : JBytes) : String :=
  String.mk ((l.map byteToHexChars).flatten)

/-- Parse one hex character (0-9, a-f, A-F), as hexToBytes does. -/
def parseHexDigit (c : Char) : Option (Fin 16) :=
  let n := c.toNat
  if h : 48 ≤ n ∧ n ≤ 57 then some ⟨n - 48, by omega⟩
  else if h2 : 97 ≤ n ∧ n ≤ 102 then some ⟨n - 87, by omega⟩
  else if h3 : 65 ≤ n ∧ n ≤ 70 then some ⟨n - 55, by omega⟩
  else none

/-- Decode a list of hex characters two at a time; an odd length or a
character outside the hex alphabet is an error (hexToBytes throws). -/
def hexCharsToBytes : List Char → Except String JBytes
  | [] => .ok []
  | [_] => .error "hex string of even length expected"
  | c1 :: c2 :: rest =>
    match parseHexDigit c1, parseHexDigit c2 with
    | some hi, some lo =>
      (hexCharsToBytes rest).map
        (fun bs => (⟨hi.val * 16 + lo.val, by
          have hh := hi.isLt
          have hl := lo.isLt
          omega⟩ : JByte) :: bs)
    | _, _ => .error "invalid hex character"

/-- hexToBytes from the hashes library. -/
def jsHexToBytes (s : String) : Except String JBytes :=
  hexCharsToBytes s.data

/-- True when an Except value is an ok result. -/
def exOk {α : Type} : Except String α → Bool
  | .ok _ => true
  | .error _ => false

/-- True when an Except value is a thrown error. -/
def exThrows {α : Type} : Except String α → Bool
  | .ok _ => false
  | .error _ => true

/-! ## External primitives (section 6 of the spec)

The narrow interfaces the core consumes.  hdDerive seed path models
HDKey.fromMasterSeed(seed).derive(path) of the BIP-32 library; a
derived node carries an optional private key (the library can in
principle produce none), a public key and a chain code. -/

/-- A BIP-32 derived node. -/
structure HDNode where
  privateKey : Option JBytes
  publicKey : JBytes
  chainCode : JBytes
deriving DecidableEq

/-- The key pair returned by the ML-DSA keygen primitive. -/
structure MLKeyPair where
  secretKey : JBytes
  publicKey : JBytes
deriving DecidableEq

/-- The signature object returned by the secp256k1 sign primitive:
r and s as bigints, the recovery bit, and the compact byte encoding
(toCompactHex renders exactly these bytes as hex). -/
structure SecpSig where
  r : Nat
  s : Nat
  recovery : Nat
  compact : JBytes
deriving DecidableEq

/-- The external primitives the dual-signature core delegates to. -/
structure Primitives where
  /-- BIP-39 mnemonicToSeed. -/
  mnemonicToSeed : String → JBytes
  /-- HDKey.fromMasterSeed(masterSeed).derive(path). -/
  hdDerive : JBytes → String → HDNode
  /-- sha256.create().update(a).update(Uint8Array of [t]).digest(). -/
  sha256two : JBytes → JByte → JBytes
  /-- sha3_256 of the hashes library. -/
  sha3 : JBytes → JBytes
  /-- shake256(data, dkLen). -/
  shake256 : JBytes → Nat → JBytes
  /-- keccak_256 of the hashes library. -/
  keccak256 : JBytes → JBytes
  /-- utf8ToBytes. -/
  utf8 : String → JBytes
  /-- secp256k1.sign(messageHash, privateKey). -/
  secpSign : JBytes → JBytes → SecpSig
  /-- secp256k1.verify(signatureBytes, messageHash, publicKey), for a
  byte-array signature argument. -/
  secpVerifyBytes : JBytes → JBytes → JBytes → Bool
  /-- ProjectivePoint.fromHex(hex of the key).toRawBytes(true). -/
  secpCompress : JBytes → JBytes
  /-- ProjectivePoint.fromHex(hex of the key).toRawBytes(false). -/
  secpDecompress : JBytes → JBytes
  /-- Whether the import of the ml-dsa module inside
  _generateMLDSAFromSeed succeeds and its keygen returns without
  throwing; false models the unavailable-or-throwing primitive. -/
  mlDsaKeygenAvailable : Bool
  /-- ml_dsa65.keygen(seed). -/
  mlDsaKeygen : JBytes → MLKeyPair

/-! ## Shared data conversion (_dataToBytes of both signers)

Both signers convert a sign/verify data argument with the same code:
a Uint8Array passes through, a string beginning 0x is hex-decoded, any
other string is UTF-8 encoded, any other object is JSON.stringified and
UTF-8 encoded, and everything else throws. -/

/-- The runtime shapes of a data argument.  An object is represented by
the string JSON.stringify renders it to. -/
inductive JSData where
  | bytes (b : JBytes)
  | str (s : String)
  | obj (json : String)
  | other
deriving DecidableEq

/-- The data.startsWith(0x) test, on the character list. -/
def startsWith0x (s : String) : Bool :=
  match s.data with
  | c1 :: c2 :: _ => c1 == Char.ofNat 48 && c2 == Char.ofNat 120
  | _ => false

/-- The characters after the 0x tag (data.slice(2)). -/
def dropTwoChars (s : String) : String :=
  String.mk (s.data.drop 2)

/-- _dataToBytes of ecdsa-signer.js and mldsa-signer.js. -/
def dataToBytes (P : Primitives) : JSData → Except String JBytes
  | .bytes b => .ok b
  | .str s =>
    if startsWith0x s then jsHexToBytes (dropTwoChars s)
    else .ok (P.utf8 s)
  | .obj j => .ok (P.utf8 j)
  | .other => .error "Unsupported data type for signing"

/-! ## DualKeyDerivation (src/crypto/dual-key-derivation.js) -/

/-- The seed constructor argument: a mnemonic string, seed bytes, or any
other value (which fails at first use).  The other case is also what a
disposed instance holds (null). -/
inductive SeedInput where
  | mnemonic (s : String)
  | bytes (b : JBytes)
  | other
deriving DecidableEq

/-- One entry of DERIVATION_PATHS: purpose, coin type and the rendered
path head (the PREFIX field of the source constant). -/
structure PathConfig where
  purpose : Nat
  coinType : Nat
  pathHead : String
deriving DecidableEq

/-- DERIVATION_PATHS, looked up by the type string used in _buildPath. -/
def derivationPathCfg : String → Option PathConfig
  | "ECDSA" => some ⟨44, 60, "m/44\x27/60\x27"⟩
  | "MLDSA" => some ⟨44, 9000, "m/44\x27/9000\x27"⟩
  | _ => none

/-- _buildPath: the BIP-44 path head of the type followed by
/accountIndex, a hardening apostrophe, /0/ and addressIndex; an unknown
type throws. -/
def buildPath (ty : String) (accountIndex addressIndex : Nat) :
    Except String String :=
  match derivationPathCfg ty with
  | none => .error ("Invalid key type: " ++ ty)
  | some cfg =>
    .ok (cfg.pathHead ++ "/" ++ toString accountIndex ++ "\x27/0/" ++
      toString addressIndex)

/-- The mutable state of a DualKeyDerivation instance.  The _masterKey
field of the source holds an HDKey object; it is modelled by the master
seed bytes that object was built from, ready for Primitives.hdDerive. -/
structure DKD where
  seed : SeedInput
  masterKey : Option JBytes
  masterSeed : Option JBytes
  initialized : Bool
deriving DecidableEq

/-- new DualKeyDerivation(seed). -/
def mkDKD (seed : SeedInput) : DKD :=
  { seed := seed, masterKey := none, masterSeed := none,
    initialized := false }

/-- _initialize: a no-op when already initialized; otherwise converts a
mnemonic with mnemonicToSeed, accepts byte seeds directly, and throws on
anything else; then records the master key and seed. -/
def dkdInit (P : Primitives) (d : DKD) : Except String DKD :=
  if d.initialized then .ok d
  else
    match d.seed with
    | .mnemonic s =>
      let masterSeed := P.mnemonicToSeed s
      .ok { d with masterKey := some masterSeed,
                   masterSeed := some masterSeed, initialized := true }
    | .bytes b =>
      .ok { d with masterKey := some b, masterSeed := some b,
                   initialized := true }
    | .other => .error "Seed must be a BIP-39 mnemonic string or Uint8Array"

/-- The object deriveECDSAKey returns. -/
structure ECDSAKeyMaterial where
  privateKey : JBytes
  publicKey : JBytes
  chainCode : JBytes
  path : String
  /-- The type field of the source object. -/
  typeName : String
  curve : String
  accountIndex : Nat
  addressIndex : Nat
deriving DecidableEq

/-- deriveECDSAKey: initialize, build the ECDSA path, derive, and fail
when the node has no private key.  Calling derive on the null master key
of a never-initialized state would be a TypeError; it is unreachable
after a successful dkdInit. -/
def deriveECDSAKey (P : Primitives) (d : DKD)
    (accountIndex addressIndex : Nat) :
    Except String (ECDSAKeyMaterial × DKD) := do
  let d2 ← dkdInit P d
  let path ← buildPath "ECDSA" accountIndex addressIndex
  match d2.masterKey with
  | none => .error "TypeError: Cannot read properties of null"
  | some mk =>
    match (P.hdDerive mk path).privateKey with
    | none => .error "Failed to derive ECDSA private key"
    | some priv =>
      .ok ({ privateKey := priv,
             publicKey := (P.hdDerive mk path).publicKey,
             chainCode := (P.hdDerive mk path).chainCode, path := path,
             typeName := "ECDSA", curve := "secp256k1",
             accountIndex := accountIndex,
             addressIndex := addressIndex }, d2)

/-- What _generateMLDSAFromSeed returns: the generated or placeholder
key pair, the placeholder marker (the __placeholder field) and the seed
it records (the __seed field). -/
structure MLDSAGenResult where
  privateKey : JBytes
  publicKey : JBytes
  /-- The __placeholder field. -/
  placeholder : Bool
  /-- The __seed field. -/
  genSeed : JBytes
deriving DecidableEq

/-- _generateMLDSAFromSeed.  When the ml-dsa import and keygen succeed,
the real key pair is returned with __placeholder false.  Otherwise the
catch block runs: it computes two sha256 expansions of the sub-seed into
local variables but never writes them anywhere, and returns freshly
allocated, all-zero buffers of the ML-DSA-65 private and public key
sizes with __placeholder true. -/
def generateMLDSAFromSeed (P : Primitives) (seed : JBytes) :
    MLDSAGenResult :=
  if P.mlDsaKeygenAvailable then
    let mldsaSeed := if seed.length == 32 then seed else seed.take 32
    let keyPair := P.mlDsaKeygen mldsaSeed
    { privateKey := keyPair.secretKey, publicKey := keyPair.publicKey,
      placeholder := false, genSeed := mldsaSeed }
  else
    let _expandedSeed := P.sha256two seed 0
    let _publicKeySeed := P.sha256two seed 1
    { privateKey := List.replicate 4032 0,
      publicKey := List.replicate 1952 0,
      placeholder := true, genSeed := seed }

/-- The object deriveMLDSAKey returns, which is also the duck-typed key
pair argument of the MLDSASigner constructor.  The source literal in
deriveMLDSAKey sets every field except placeholderFlag: the __placeholder
marker of the generation result is NOT copied over, so reading it on
this object yields undefined, i.e. none. -/
structure MLDSAKeyObj where
  privateKey : Option JBytes
  publicKey : Option JBytes
  seed : Option JBytes
  path : Option String
  /-- The type field of the source object. -/
  typeName : Option String
  algorithm : Option String
  securityLevel : Option Nat
  accountIndex : Option Nat
  addressIndex : Option Nat
  /-- The __placeholder property as the signer constructor reads it. -/
  placeholderFlag : Option Bool
deriving DecidableEq

/-- deriveMLDSAKey: initialize, build the MLDSA path, derive, take the
first 32 bytes of the node private key as the ML-DSA sub-seed, generate
the key pair, and return the material object (without the __placeholder
marker, see MLDSAKeyObj). -/
def deriveMLDSAKey (P : Primitives) (d : DKD)
    (accountIndex addressIndex : Nat) :
    Except String (MLDSAKeyObj × DKD) := do
  let d2 ← dkdInit P d
  let path ← buildPath "MLDSA" accountIndex addressIndex
  match d2.masterKey with
  | none => .error "TypeError: Cannot read properties of null"
  | some mk =>
    match (P.hdDerive mk path).privateKey with
    | none => .error "Failed to derive ML-DSA seed"
    | some priv =>
      .ok ({ privateKey :=
               some (generateMLDSAFromSeed P (priv.take 32)).privateKey,
             publicKey :=
               some (generateMLDSAFromSeed P (priv.take 32)).publicKey,
             seed := some (priv.take 32), path := some path,
             typeName := some "ML-DSA", algorithm := some "ML-DSA-65",
             securityLevel := some 3,
             accountIndex := some accountIndex,
             addressIndex := some addressIndex,
             placeholderFlag := none }, d2)

/-- The pair of path strings getDerivationPaths returns. -/
structure DerivationPathsPair where
  ecdsa : String
  mldsa : String
deriving DecidableEq

/-- getDerivationPaths: builds both path strings.  It touches no instance
state and performs no derivation (it does not even initialize), which is
the source of its purity. -/
def getDerivationPaths (accountIndex addressIndex : Nat) :
    Except String DerivationPathsPair := do
  let e ← buildPath "ECDSA" accountIndex addressIndex
  let m ← buildPath "MLDSA" accountIndex addressIndex
  .ok { ecdsa := e, mldsa := m }

/-! ## MLDSASigner (src/crypto/mldsa-signer.js) -/

/-- One entry of ML_DSA_LEVELS. -/
structure MLDSALevelInfo where
  level : Nat
  privateKeySize : Nat
  publicKeySize : Nat
  signatureSize : Nat
deriving DecidableEq

/-- ML_DSA_LEVELS.  Note the property names: the source object uses
underscores (ML_DSA_65), while every algorithm identifier the rest of
the code produces uses hyphens (ML-DSA-65); a hyphenated lookup
therefore yields none. -/
def mlDsaLevels : String → Option MLDSALevelInfo
  | "ML_DSA_44" => some ⟨2, 2560, 1312, 2420⟩
  | "ML_DSA_65" => some ⟨3, 4032, 1952, 3293⟩
  | "ML_DSA_87" => some ⟨5, 4896, 2592, 4595⟩
  | _ => none

/-- An MLDSASigner instance after successful construction. -/
structure MLDSASigner where
  privateKey : JBytes
  publicKey : JBytes
  seed : Option JBytes
  path : String
  algorithm : String
  securityLevel : Nat
  accountIndex : Nat
  addressIndex : Nat
  /-- The _hasRealImplementation field. -/
  hasRealImpl : Bool
deriving DecidableEq

/-- The MLDSASigner constructor: rejects a key pair without private or
public key; fills the defaulted fields; runs _validateKeySizes, which
looks the algorithm up in ML_DSA_LEVELS and throws when the lookup
fails (the size comparisons only warn to the console and are not
modelled); finally records _hasRealImplementation as the negation of
the (possibly absent) __placeholder property. -/
def mkMLDSASigner (keyPair : MLDSAKeyObj) : Except String MLDSASigner :=
  match keyPair.privateKey, keyPair.publicKey with
  | some priv, some pub =>
    match mlDsaLevels (keyPair.algorithm.getD "ML-DSA-65") with
    | none => .error ("Unknown ML-DSA algorithm: " ++
        keyPair.algorithm.getD "ML-DSA-65")
    | some _ =>
      .ok { privateKey := priv, publicKey := pub, seed := keyPair.seed,
            path := keyPair.path.getD "",
            algorithm := keyPair.algorithm.getD "ML-DSA-65",
            securityLevel := keyPair.securityLevel.getD 3,
            accountIndex := keyPair.accountIndex.getD 0,
            addressIndex := keyPair.addressIndex.getD 0,
            hasRealImpl := !(keyPair.placeholderFlag.getD false) }
  | _, _ => .error "Invalid key pair provided to MLDSASigner"

/-- hasRealImplementation(). -/
def mldsaHasRealImplementation (s : MLDSASigner) : Bool :=
  s.hasRealImpl

/-- The options object of MLDSASigner.sign. -/
structure MLDSASignOptions where
  deterministic : Bool := true
  context : JBytes := []
deriving DecidableEq

/-- The object MLDSASigner.sign returns (the timestamp field is not
modelled).  placeholderFlag models the __placeholder property: some true
on the placeholder path, absent otherwise. -/
structure MLDSASigResult where
  signature : JBytes
  signatureHex : String
  algorithm : String
  securityLevel : Nat
  publicKey : JBytes
  messageHash : String
  context : String
  placeholderFlag : Option Bool
deriving DecidableEq

/-- _signWithPlaceholder: hashes the message, the stored sub-seed (or 32
zero bytes when absent) and the context together, and expands the
combined hash with shake256 to the signature size of the algorithm; the
size lookup throws a TypeError when the algorithm is not a key of
ML_DSA_LEVELS. -/
def mldsaSignPlaceholder (P : Primitives) (s : MLDSASigner)
    (message context : JBytes) (_deterministic : Bool) :
    Except String MLDSASigResult :=
  let messageHash := P.sha3 message
  let seedHash := P.sha3 (s.seed.getD (List.replicate 32 0))
  let combinedHash := P.sha3 (messageHash ++ seedHash ++ context)
  match mlDsaLevels s.algorithm with
  | none => .error "TypeError: Cannot read properties of undefined"
  | some lv =>
    let signature := P.shake256 combinedHash lv.signatureSize
    .ok { signature := signature, signatureHex := jsBytesToHex signature,
          algorithm := s.algorithm, securityLevel := s.securityLevel,
          publicKey := s.publicKey,
          messageHash := jsBytesToHex messageHash,
          context := jsBytesToHex context, placeholderFlag := some true }

/-- _signWithRealImplementation.  The source destructures ml_dsa_65 from
a dynamic import of the post-quantum package root, but that package only
exposes ml_dsa65 (no second underscore) under its ml-dsa.js subpath —
the repository's own API-check script prints that name — so the
destructured binding is always undefined, the guarded branch is never
taken, and control always falls through to the placeholder signer. -/
def mldsaSignReal (P : Primitives) (s : MLDSASigner)
    (message context : JBytes) (deterministic : Bool) :
    Except String MLDSASigResult :=
  mldsaSignPlaceholder P s message context deterministic

/-- MLDSASigner.sign: converts the data, then dispatches on
_hasRealImplementation. -/
def mldsaSign (P : Primitives) (s : MLDSASigner) (data : JSData)
    (options : MLDSASignOptions) : Except String MLDSASigResult := do
  let message ← dataToBytes P data
  if s.hasRealImpl then
    mldsaSignReal P s message options.context options.deterministic
  else
    mldsaSignPlaceholder P s message options.context options.deterministic

/-- The runtime shapes of the signature argument of MLDSASigner.verify.
An object with a truthy signature property contributes that property
(bytes from a signature result of this signer, or a string when an
ECDSA-style result is passed); an object with an absent or falsy
signature property matches none of the extraction branches; null has
typeof object, so reading its property throws. -/
inductive MLDSAVerifySig where
  | bytes (b : JBytes)
  | objWithBytes (b : JBytes)
  | objWithStr (s : String)
  | objNoSig
  | str (s : String)
  | nullv
  | other
deriving DecidableEq

/-- The extracted sigBytes value: a byte array or a string (JavaScript
lets both flow into the length comparison). -/
def mldsaSigBytesLen : JBytes ⊕ String → Nat
  | .inl b => b.length
  | .inr s => s.length

/-- The body of MLDSASigner.verify before the enclosing try/catch:
extract sigBytes, attempt the real implementation (whose import never
resolves, see mldsaSignReal) and fall back to the size-only check
against the signature size of the algorithm. -/
def mldsaVerifyBody (P : Primitives) (s : MLDSASigner) (data : JSData)
    (signature : MLDSAVerifySig) (publicKey : Option JBytes) :
    Except String Bool := do
  let _message ← dataToBytes P data
  let _pubKey := publicKey.getD s.publicKey
  let sigBytes : JBytes ⊕ String ←
    match signature with
    | .bytes b => pure (Sum.inl b)
    | .objWithBytes b => pure (Sum.inl b)
    | .objWithStr st => pure (Sum.inr st)
    | .objNoSig => return false
    | .str st => (jsHexToBytes st).map Sum.inl
    | .nullv => .error "TypeError: Cannot read properties of null"
    | .other => return false
  match mlDsaLevels s.algorithm with
  | none => .error "TypeError: Cannot read properties of undefined"
  | some lv => return mldsaSigBytesLen sigBytes == lv.signatureSize

/-- The try/catch pattern of both verify methods: an ok result is
returned, a thrown error becomes false. -/
def tryCatchFalse (x : Except String Bool) : Bool :=
  match x with
  | .ok b => b
  | .error _ => false

/-- MLDSASigner.verify: the body above inside try/catch, any throw
becoming false. -/
def mldsaVerify (P : Primitives) (s : MLDSASigner) (data : JSData)
    (signature : MLDSAVerifySig) (publicKey : Option JBytes) : Bool :=
  tryCatchFalse (mldsaVerifyBody P s data signature publicKey)

/-- MLDSASigner.getAddress: the mldsa: tag followed by the hex of the
first 20 bytes of the sha3 hash of the public key. -/
def mldsaGetAddress (P : Primitives) (s : MLDSASigner) : String :=
  let pubKeyHash := P.sha3 s.publicKey
  let addressBytes := pubKeyHash.take 20
  "mldsa:" ++ jsBytesToHex addressBytes

/-- The object getAddressFormats returns. -/
structure MLDSAAddressFormats where
  standard : String
  hex : String
  bytes : JBytes
  full : String
  truncated : String
deriving DecidableEq

/-- MLDSASigner.getAddressFormats. -/
def mldsaGetAddressFormats (P : Primitives) (s : MLDSASigner) :
    MLDSAAddressFormats :=
  let pubKeyHash := P.sha3 s.publicKey
  let addressBytes := pubKeyHash.take 20
  let hex := jsBytesToHex addressBytes
  { standard := mldsaGetAddress P s, hex := hex, bytes := addressBytes,
    full := "mldsa:" ++ s.algorithm.toLower ++ ":" ++ hex,
    truncated := "mldsa:" ++ hex.take 8 ++ "..." ++
      hex.drop (hex.length - 6) }

/-- The object MLDSASigner.getPublicKey returns. -/
structure MLDSAPublicKeyInfo where
  bytes : JBytes
  hex : String
  size : Nat
  algorithm : String
  securityLevel : Nat
  path : String
  accountIndex : Nat
  addressIndex : Nat
  address : String
deriving DecidableEq

/-- MLDSASigner.getPublicKey. -/
def mldsaGetPublicKey (P : Primitives) (s : MLDSASigner) :
    MLDSAPublicKeyInfo :=
  { bytes := s.publicKey, hex := jsBytesToHex s.publicKey,
    size := s.publicKey.length, algorithm := s.algorithm,
    securityLevel := s.securityLevel, path := s.path,
    accountIndex := s.accountIndex, addressIndex := s.addressIndex,
    address := mldsaGetAddress P s }

/-- MLDSASigner.getFingerprint: hex of the first 8 bytes of the sha3
hash of the public key. -/
def mldsaGetFingerprint (P : Primitives) (s : MLDSASigner) : String :=
  jsBytesToHex ((P.sha3 s.publicKey).take 8)

/-- The object MLDSASigner.getInfo returns. -/
structure MLDSAInfo where
  typeName : String
  algorithm : String
  securityLevel : Nat
  nistLevel : String
  address : String
  fingerprint : String
  publicKeySize : Nat
  privateKeySize : Nat
  signatureSize : Nat
  path : String
  accountIndex : Nat
  addressIndex : Nat
  hasRealImplementationField : Bool
deriving DecidableEq

/-- MLDSASigner.getInfo: reads the size table for the algorithm (a
TypeError when the algorithm is not an underscore key). -/
def mldsaGetInfo (P : Primitives) (s : MLDSASigner) :
    Except String MLDSAInfo :=
  match mlDsaLevels s.algorithm with
  | none => .error "TypeError: Cannot read properties of undefined"
  | some sizes =>
    .ok { typeName := "ML-DSA", algorithm := s.algorithm,
          securityLevel := s.securityLevel,
          nistLevel := "NIST Level " ++ toString s.securityLevel,
          address := mldsaGetAddress P s,
          fingerprint := mldsaGetFingerprint P s,
          publicKeySize := sizes.publicKeySize,
          privateKeySize := sizes.privateKeySize,
          signatureSize := sizes.signatureSize, path := s.path,
          accountIndex := s.accountIndex, addressIndex := s.addressIndex,
          hasRealImplementationField := s.hasRealImpl }

/-- MLDSASigner.getSignatureSize. -/
def mldsaGetSignatureSize (s : MLDSASigner) : Except String Nat :=
  match mlDsaLevels s.algorithm with
  | none => .error "TypeError: Cannot read properties of undefined"
  | some lv => .ok lv.signatureSize

/-! ## ECDSASigner (src/crypto/ecdsa-signer.js) -/

/-- An ECDSASigner instance. -/
structure ECDSASigner where
  privateKey : JBytes
  publicKey : JBytes
  path : String
  accountIndex : Nat
  addressIndex : Nat
deriving DecidableEq

/-- The ECDSASigner constructor applied to the material deriveECDSAKey
produces (whose privateKey and publicKey are always present, so the
truthiness check of the constructor always passes). -/
def mkECDSASigner (m : ECDSAKeyMaterial) : ECDSASigner :=
  { privateKey := m.privateKey, publicKey := m.publicKey,
    path := m.path, accountIndex := m.accountIndex,
    addressIndex := m.addressIndex }

/-- The options object of ECDSASigner.sign. -/
structure ECDSASignOptions where
  hashMessage : Bool := true
  /-- The addPrefix option (EIP-191 prefixing). -/
  addPrefixFlag : Bool := false
deriving DecidableEq

/-- The EIP-191 personal-message tag built in ECDSASigner.sign: the 0x19
byte, the literal text, a newline, and the byte length of the message. -/
def ethPersonalTag (messageLength : Nat) : String :=
  "\x19Ethereum Signed Message:\n" ++ toString messageLength

/-- The shape of the result object ECDSASigner.sign tries to build
(r/s rendered through bytesToHex, v and recovery, the compact hex in
signature and compact, the hex message hash).  The construction never
completes in the dependency stack this repository pins (see ecdsaSign),
but verify can still receive objects of this shape from a caller. -/
structure ECDSASignResult where
  r : String
  s : String
  v : Nat
  signature : String
  compact : String
  messageHash : String
  recovery : Nat
deriving DecidableEq

/-- ECDSASigner.sign: serialize the data, optionally prepend the EIP-191
tag, optionally hash with keccak256, and sign the hash with the
secp256k1 primitive.  The return-object construction then computes
bytesToHex(signature.r.toString(16).padStart(64, zero)); signature.r is
a bigint, so the argument is a string, and in the hashes library
versions pinned by the dependency stack this repository documents
(the post-quantum package 0.5.2 requires hashes 1.3.3 or later, whose
bytesToHex asserts its argument) the call throws Uint8Array expected.
sign therefore performs the hashing and the primitive signing but never
returns a result: every call that survives serialization throws while
packaging r. -/
def ecdsaSign (P : Primitives) (s : ECDSASigner) (data : JSData)
    (options : ECDSASignOptions) : Except String ECDSASignResult := do
  let message ← dataToBytes P data
  let message :=
    if options.addPrefixFlag then
      P.utf8 (ethPersonalTag message.length) ++ message
    else message
  let messageHash := if options.hashMessage then P.keccak256 message
    else message
  let _signature := P.secpSign messageHash s.privateKey
  .error "Uint8Array expected"

/-- ECDSASigner.signMessage: sign with hashing and the EIP-191 tag. -/
def ecdsaSignMessage (P : Primitives) (s : ECDSASigner)
    (message : String) : Except String ECDSASignResult :=
  ecdsaSign P s (.str message)
    { hashMessage := true, addPrefixFlag := true }

/-- The runtime shapes of the signature argument of ECDSASigner.verify:
a string is hex-decoded, anything else is handed to the secp256k1 verify
primitive as is. -/
inductive ECDSAVerifySig where
  | str (s : String)
  | bytes (b : JBytes)
  | obj (o : ECDSASignResult)
  | nullv
  | other
deriving DecidableEq

/-- The body of ECDSASigner.verify before its try/catch: serialize the
data, hash it with keccak256 (never with the EIP-191 tag), pick the
supplied or instance public key, and call the secp256k1 verify
primitive.  The primitive accepts a byte-array (or hex) signature; for
any other argument it fails: a plain object is only usable when its r
and s are bigints, and the objects ECDSASigner.sign produces carry
strings there (see jsBytesToHexOnString), so the library rejects the
value (returning false or throwing, which the wrapper turns into
false); null and primitives are likewise rejected. -/
def ecdsaVerifyBody (P : Primitives) (s : ECDSASigner) (data : JSData)
    (signature : ECDSAVerifySig) (publicKey : Option JBytes) :
    Except String Bool := do
  let message ← dataToBytes P data
  let messageHash := P.keccak256 message
  let pubKey := publicKey.getD s.publicKey
  match signature with
  | .str st => do
    let b ← jsHexToBytes st
    return P.secpVerifyBytes b messageHash pubKey
  | .bytes b => return P.secpVerifyBytes b messageHash pubKey
  | .obj _ => return false
  | .nullv => return false
  | .other => return false

/-- ECDSASigner.verify: the body above inside try/catch, any throw
becoming false. -/
def ecdsaVerify (P : Primitives) (s : ECDSASigner) (data : JSData)
    (signature : ECDSAVerifySig) (publicKey : Option JBytes) : Bool :=
  tryCatchFalse (ecdsaVerifyBody P s data signature publicKey)

/-- The public-key normalization at the start of ECDSASigner.getAddress:
a 65-byte key with leading 0x04 loses that byte; a 33-byte key is
decompressed and loses the 0x04 byte; any other shape passes through. -/
def ecdsaNormalizePubKey (P : Primitives) (pk : JBytes) : JBytes :=
  if pk.length == 65 && pk.headD 0 == 4 then pk.drop 1
  else if pk.length == 33 then (P.secpDecompress pk).drop 1
  else pk

/-- ECDSASigner.getAddress: 0x followed by the hex of the last 20 bytes
of the keccak256 hash of the normalized public key. -/
def ecdsaGetAddress (P : Primitives) (s : ECDSASigner) : String :=
  let pubKeyHash := P.keccak256 (ecdsaNormalizePubKey P s.publicKey)
  let address := pubKeyHash.drop (pubKeyHash.length - 20)
  "0x" ++ jsBytesToHex address

/-- The EIP-55 case map of getChecksumAddress: the i-th address
character is uppercased when the i-th hex digit of the hash is at least
8 (a missing digit reads as undefined, whose parse is NaN and fails the
comparison). -/
def checksumCase (addressChars hashChars : List Char) : List Char :=
  (addressChars.enum.map (fun ci =>
    match hashChars.drop ci.1 with
    | [] => ci.2
    | h :: _ =>
      match parseHexDigit h with
      | some d => if d.val ≥ 8 then ci.2.toUpper else ci.2
      | none => ci.2))

/-- ECDSASigner.getChecksumAddress: lowercase the address, strip the 0x
tag, hash the stripped text with keccak256, and re-case per digit. -/
def ecdsaGetChecksumAddress (P : Primitives) (s : ECDSASigner) : String :=
  let address := (ecdsaGetAddress P s).toLower.drop 2
  let hash := jsBytesToHex (P.keccak256 (P.utf8 address))
  "0x" ++ String.mk (checksumCase address.data hash.data)

/-- _getCompressedPublicKey: a 33-byte key as is, otherwise compress. -/
def ecdsaCompressedPub (P : Primitives) (pk : JBytes) : JBytes :=
  if pk.length == 33 then pk else P.secpCompress pk

/-- _getUncompressedPublicKey: a 65-byte key as is, otherwise
decompress. -/
def ecdsaUncompressedPub (P : Primitives) (pk : JBytes) : JBytes :=
  if pk.length == 65 then pk else P.secpDecompress pk

/-- The object ECDSASigner.getPublicKey returns. -/
structure ECDSAPublicKeyInfo where
  compressed : String
  uncompressed : String
  raw : JBytes
  path : String
  accountIndex : Nat
  addressIndex : Nat
deriving DecidableEq

/-- ECDSASigner.getPublicKey. -/
def ecdsaGetPublicKey (P : Primitives) (s : ECDSASigner) :
    ECDSAPublicKeyInfo :=
  { compressed := jsBytesToHex (ecdsaCompressedPub P s.publicKey),
    uncompressed := jsBytesToHex (ecdsaUncompressedPub P s.publicKey),
    raw := s.publicKey, path := s.path,
    accountIndex := s.accountIndex, addressIndex := s.addressIndex }

/-- The object ECDSASigner.getInfo returns. -/
structure ECDSAInfo where
  typeName : String
  curve : String
  address : String
  checksumAddress : String
  publicKeyCompressed : String
  path : String
  accountIndex : Nat
  addressIndex : Nat
deriving DecidableEq

/-- ECDSASigner.getInfo. -/
def ecdsaGetInfo (P : Primitives) (s : ECDSASigner) : ECDSAInfo :=
  { typeName := "ECDSA", curve := "secp256k1",
    address := ecdsaGetAddress P s,
    checksumAddress := ecdsaGetChecksumAddress P s,
    publicKeyCompressed := jsBytesToHex (ecdsaCompressedPub P s.publicKey),
    path := s.path, accountIndex := s.accountIndex,
    addressIndex := s.addressIndex }

/-! ## DualSignatureProtocol (src/protocols/dual-signature-protocol.js) -/

/-- The duck-typed account collaborator.  For each capability there is a
method variant (getSeedFn some means the method exists and returns the
carried value; an inner none is an undefined return) and a plain field
variant.  A value that is neither a string nor a byte array (including
undefined and null, which are also falsy) is SeedInput.other. -/
structure Account where
  getSeedFn : Option (Option SeedInput)
  seedField : Option SeedInput
  getAccountIndexFn : Option Nat
  accountIndexField : Option Nat
  getAddressIndexFn : Option Nat
  addressIndexField : Option Nat
deriving DecidableEq

/-- The protocol configuration after the constructor merged the caller
object over the defaults.  autoInit is the autoInitialize flag of the
source; a none in the seed and index overrides is an absent property. -/
structure DSConfig where
  ecdsaEnabled : Bool := true
  mldsaEnabled : Bool := true
  defaultSignatureType : String := "ecdsa"
  mldsaAlgorithm : String := "ML-DSA-65"
  autoInit : Bool := true
  seed : Option SeedInput := none
  accountIndex : Option Nat := none
  addressIndex : Option Nat := none
deriving DecidableEq

/-- The object getAddresses returns. -/
structure DualAddresses where
  ethereum : Option String
  ethereumChecksum : Option String
  mldsa : Option String
  mldsaFormats : Option MLDSAAddressFormats
deriving DecidableEq

/-- The object getPublicKeys returns. -/
structure DualPublicKeys where
  ecdsa : Option ECDSAPublicKeyInfo
  mldsa : Option MLDSAPublicKeyInfo
deriving DecidableEq

/-- The state of a DualSignatureProtocol instance.  account and config
are nullable because dispose sets them to null; the caches are the
_addressCache and _publicKeyCache objects, modelled as association
lists keyed by the accountIndex-addressIndex cache string. -/
structure DSP where
  account : Option Account
  config : Option DSConfig
  keyDerivation : Option DKD
  ecdsaSigner : Option ECDSASigner
  mldsaSigner : Option MLDSASigner
  initialized : Bool
  accountIndex : Option Nat
  addressIndex : Option Nat
  addressCache : List (String × DualAddresses)
  publicKeyCache : List (String × DualPublicKeys)
deriving DecidableEq

/-- The constructor, for a non-null account (a null account throws
before any state exists, so no DSP value arises from it). -/
def mkDSP (account : Account) (config : DSConfig) : DSP :=
  { account := some account, config := some config,
    keyDerivation := none, ecdsaSigner := none, mldsaSigner := none,
    initialized := false, accountIndex := none, addressIndex := none,
    addressCache := [], publicKeyCache := [] }

/-- A read of this._config: the configuration when present, a
TypeError when the instance was disposed (the field is null). -/
def dspConfigOf (s : DSP) : Except String DSConfig :=
  match s.config with
  | some c => .ok c
  | none => .error "TypeError: Cannot read properties of null"

/-- The seed resolution at the top of _initialize: the configuration
override wins; otherwise a getSeed method is called (its undefined
return flows on as an invalid seed); otherwise a truthy _seed field is
used; otherwise the no-seed error is thrown. -/
def dspResolveSeed (cfg : DSConfig) (account : Option Account) :
    Except String SeedInput :=
  match cfg.seed with
  | some s => .ok s
  | none =>
    match account with
    | none => .error "TypeError: Cannot read properties of null"
    | some a =>
      match a.getSeedFn with
      | some r => .ok (r.getD SeedInput.other)
      | none =>
        match a.seedField with
        | some s => .ok s
        | none => .error "No seed available for key derivation"

/-- _getAccountIndex: configuration override, then the account method,
then the account field, then 0. -/
def dspResolveAccountIndex (cfg : DSConfig) (account : Option Account) :
    Except String Nat :=
  match cfg.accountIndex with
  | some n => .ok n
  | none =>
    match account with
    | none => .error "TypeError: Cannot read properties of null"
    | some a =>
      match a.getAccountIndexFn with
      | some n => .ok n
      | none => .ok (a.accountIndexField.getD 0)

/-- _getAddressIndex: same fallback order as _getAccountIndex. -/
def dspResolveAddressIndex (cfg : DSConfig) (account : Option Account) :
    Except String Nat :=
  match cfg.addressIndex with
  | some n => .ok n
  | none =>
    match account with
    | none => .error "TypeError: Cannot read properties of null"
    | some a =>
      match a.getAddressIndexFn with
      | some n => .ok n
      | none => .ok (a.addressIndexField.getD 0)

/-- _initialize: a no-op when initialized; otherwise resolve the seed
and indices, build the key derivation, derive and wrap a signer per
enabled algorithm, and mark the protocol initialized.  Any throw is
re-thrown with the Failed-to-initialize text.  In the source the
assignments before a failing step persist on the instance; no claim
below depends on such a partially updated state, and this embedding
returns the error without a state. -/
def dspInitInner (P : Primitives) (s : DSP) : Except String DSP :=
  if s.initialized then .ok s
  else
    match (do
      let cfg ← dspConfigOf s
      let seed ← dspResolveSeed cfg s.account
      let kd := mkDKD seed
      let accountIndex ← dspResolveAccountIndex cfg s.account
      let addressIndex ← dspResolveAddressIndex cfg s.account
      let ecdsaStep : Option ECDSASigner × DKD ←
        if cfg.ecdsaEnabled then do
          let r ← deriveECDSAKey P kd accountIndex addressIndex
          pure (some (mkECDSASigner r.1), r.2)
        else pure (none, kd)
      let mldsaStep : Option MLDSASigner × DKD ←
        if cfg.mldsaEnabled then do
          let r ← deriveMLDSAKey P ecdsaStep.2 accountIndex addressIndex
          let signer ← mkMLDSASigner r.1
          pure (some signer, r.2)
        else pure (none, ecdsaStep.2)
      pure { s with keyDerivation := some mldsaStep.2,
                    accountIndex := some accountIndex,
                    addressIndex := some addressIndex,
                    ecdsaSigner := ecdsaStep.1,
                    mldsaSigner := mldsaStep.1,
                    initialized := true } : Except String DSP) with
    | .ok s2 => .ok s2
    | .error e =>
      .error ("Failed to initialize DualSignatureProtocol: " ++ e)

/-- initialize(): awaits _initialize. -/
def dspInitCall (P : Primitives) (s : DSP) : Except String DSP :=
  dspInitInner P s

/-- _ensureInitialized.  The source condition reads
this._config.autoInitialize only when not yet initialized, so on a
disposed instance (initialized false, config null) the property read
throws a TypeError before anything else happens. -/
def dspEnsureInit (P : Primitives) (s : DSP) : Except String DSP :=
  if s.initialized then .ok s
  else
    match s.config with
    | none => .error "TypeError: Cannot read properties of null"
    | some cfg =>
      if cfg.autoInit then dspInitInner P s
      else .error
        "DualSignatureProtocol not initialized. Call initialize() first."

/-- isInitialized(). -/
def dspIsInit (s : DSP) : Bool :=
  s.initialized

/-- clearCaches(). -/
def dspClearCaches (s : DSP) : DSP :=
  { s with addressCache := [], publicKeyCache := [] }

/-- dispose(): disposes each present signer and the key derivation
(each call is guarded by a presence test and only zeroes buffers that
are dropped here), clears the caches, resets the initialized flag and
nulls the account and configuration.  Every step is total, which is why
disposal cannot throw in any state; the resolved indices are NOT reset
by the source and are kept. -/
def dspDispose (s : DSP) : DSP :=
  { account := none, config := none, keyDerivation := none,
    ecdsaSigner := none, mldsaSigner := none, initialized := false,
    accountIndex := s.accountIndex, addressIndex := s.addressIndex,
    addressCache := [], publicKeyCache := [] }

/-- The duck-typed options object of the protocol signing methods; each
consumer reads its own properties with its own defaults.  typeOpt is
the type property read by the sign dispatcher. -/
structure DSPSignOptions where
  typeOpt : Option String := none
  hashMessage : Bool := true
  addPrefixFlag : Bool := false
  deterministic : Bool := true
  context : JBytes := []
deriving DecidableEq

/-- The properties ECDSASigner.sign reads from the options object. -/
def toEcdsaOptions (o : DSPSignOptions) : ECDSASignOptions :=
  { hashMessage := o.hashMessage, addPrefixFlag := o.addPrefixFlag }

/-- The properties MLDSASigner.sign reads from the options object. -/
def toMldsaOptions (o : DSPSignOptions) : MLDSASignOptions :=
  { deterministic := o.deterministic, context := o.context }

/-- signWithECDSA: ensure initialization, then fail when the algorithm
is disabled or its signer missing, else sign. -/
def dspSignWithECDSA (P : Primitives) (s : DSP) (data : JSData)
    (options : DSPSignOptions) :
    Except String (ECDSASignResult × DSP) := do
  let s2 ← dspEnsureInit P s
  let cfg ← dspConfigOf s2
  match cfg.ecdsaEnabled, s2.ecdsaSigner with
  | true, some signer => do
    let sig ← ecdsaSign P signer data (toEcdsaOptions options)
    pure (sig, s2)
  | _, _ => .error "ECDSA signing is not enabled"

/-- signWithMLDSA: ensure initialization, then fail when the algorithm
is disabled or its signer missing, else sign. -/
def dspSignWithMLDSA (P : Primitives) (s : DSP) (data : JSData)
    (options : DSPSignOptions) :
    Except String (MLDSASigResult × DSP) := do
  let s2 ← dspEnsureInit P s
  let cfg ← dspConfigOf s2
  match cfg.mldsaEnabled, s2.mldsaSigner with
  | true, some signer => do
    let sig ← mldsaSign P signer data (toMldsaOptions options)
    pure (sig, s2)
  | _, _ => .error "ML-DSA signing is not enabled"

/-- The object dualSign returns (the timestamp field is not
modelled). -/
structure DualSignResult where
  ecdsa : Option ECDSASignResult
  mldsa : Option MLDSASigResult
  data : JSData
  accountIndex : Option Nat
  addressIndex : Option Nat
deriving DecidableEq

/-- dualSign: ensure initialization, then run each enabled signing
method and a resolved null for each disabled one, and join.  The two
tasks are issued together in the source; a rejection of either rejects
the join, which the sequential Except encoding preserves. -/
def dspDualSign (P : Primitives) (s : DSP) (data : JSData)
    (options : DSPSignOptions) :
    Except String (DualSignResult × DSP) := do
  let s2 ← dspEnsureInit P s
  let cfg ← dspConfigOf s2
  let ecdsaSignature : Option ECDSASignResult ←
    if cfg.ecdsaEnabled then do
      let r ← dspSignWithECDSA P s2 data options
      pure (some r.1)
    else pure none
  let mldsaSignature : Option MLDSASigResult ←
    if cfg.mldsaEnabled then do
      let r ← dspSignWithMLDSA P s2 data options
      pure (some r.1)
    else pure none
  pure ({ ecdsa := ecdsaSignature, mldsa := mldsaSignature,
          data := data, accountIndex := s2.accountIndex,
          addressIndex := s2.addressIndex }, s2)

/-- The result of the sign dispatcher: whichever of the three result
shapes the selected mode produces. -/
inductive SignOutcome where
  | ecdsa (r : ECDSASignResult)
  | mldsa (r : MLDSASigResult)
  | dual (r : DualSignResult)
deriving DecidableEq

/-- sign(data, options): dispatch on the type option or the configured
default; any other value is the invalid-type error.  The default is
read from this._config, which throws on a disposed instance. -/
def dspSign (P : Primitives) (s : DSP) (data : JSData)
    (options : DSPSignOptions) : Except String (SignOutcome × DSP) := do
  let signatureType ← match options.typeOpt with
    | some t => pure t
    | none => (dspConfigOf s).map (fun cfg => cfg.defaultSignatureType)
  if signatureType == "ecdsa" then
    (dspSignWithECDSA P s data options).map
      (fun p => (SignOutcome.ecdsa p.1, p.2))
  else if signatureType == "mldsa" then
    (dspSignWithMLDSA P s data options).map
      (fun p => (SignOutcome.mldsa p.1, p.2))
  else if signatureType == "dual" then
    (dspDualSign P s data options).map
      (fun p => (SignOutcome.dual p.1, p.2))
  else .error ("Invalid signature type: " ++ signatureType)

/-- verifyECDSA: ensure initialization, require the signer, verify. -/
def dspVerifyECDSA (P : Primitives) (s : DSP) (data : JSData)
    (signature : ECDSAVerifySig) (publicKey : Option JBytes) :
    Except String (Bool × DSP) := do
  let s2 ← dspEnsureInit P s
  match s2.ecdsaSigner with
  | none => .error "ECDSA signer not available"
  | some signer => pure (ecdsaVerify P signer data signature publicKey, s2)

/-- verifyMLDSA: ensure initialization, require the signer, verify. -/
def dspVerifyMLDSA (P : Primitives) (s : DSP) (data : JSData)
    (signature : MLDSAVerifySig) (publicKey : Option JBytes) :
    Except String (Bool × DSP) := do
  let s2 ← dspEnsureInit P s
  match s2.mldsaSigner with
  | none => .error "ML-DSA signer not available"
  | some signer => pure (mldsaVerify P signer data signature publicKey, s2)

/-- The cache key template of getPublicKeys and getAddresses; a null
index renders as the text null. -/
def cacheKeyOf (s : DSP) : String :=
  (match s.accountIndex with
   | some n => toString n
   | none => "null") ++ "-" ++
  (match s.addressIndex with
   | some n => toString n
   | none => "null")

/-- getPublicKeys: ensure initialization, serve from the cache when the
key is present, otherwise build from the signers and cache. -/
def dspGetPublicKeys (P : Primitives) (s : DSP) :
    Except String (DualPublicKeys × DSP) := do
  let s2 ← dspEnsureInit P s
  let key := cacheKeyOf s2
  match s2.publicKeyCache.lookup key with
  | some cached => pure (cached, s2)
  | none =>
    let publicKeys : DualPublicKeys :=
      { ecdsa := s2.ecdsaSigner.map (ecdsaGetPublicKey P),
        mldsa := s2.mldsaSigner.map (mldsaGetPublicKey P) }
    pure (publicKeys,
      { s2 with publicKeyCache := (key, publicKeys) :: s2.publicKeyCache })

/-- getAddresses: ensure initialization, serve from the cache when the
key is present, otherwise build from the signers and cache. -/
def dspGetAddresses (P : Primitives) (s : DSP) :
    Except String (DualAddresses × DSP) := do
  let s2 ← dspEnsureInit P s
  let key := cacheKeyOf s2
  match s2.addressCache.lookup key with
  | some cached => pure (cached, s2)
  | none =>
    let addresses : DualAddresses :=
      { ethereum := s2.ecdsaSigner.map (ecdsaGetAddress P),
        ethereumChecksum := s2.ecdsaSigner.map (ecdsaGetChecksumAddress P),
        mldsa := s2.mldsaSigner.map (mldsaGetAddress P),
        mldsaFormats := s2.mldsaSigner.map (mldsaGetAddressFormats P) }
    pure (addresses,
      { s2 with addressCache := (key, addresses) :: s2.addressCache })

/-- The object getFingerprints returns. -/
structure DualFingerprints where
  ecdsa : Option String
  mldsa : Option String
deriving DecidableEq

/-- getFingerprints: the first 16 hex characters of the compressed
ECDSA key and the ML-DSA fingerprint. -/
def dspGetFingerprints (P : Primitives) (s : DSP) :
    Except String (DualFingerprints × DSP) := do
  let s2 ← dspEnsureInit P s
  pure ({ ecdsa := s2.ecdsaSigner.map
            (fun sig => (ecdsaGetPublicKey P sig).compressed.take 16),
          mldsa := s2.mldsaSigner.map (mldsaGetFingerprint P) }, s2)

/-- The ecdsa branch of exportPublicKeys. -/
structure EcdsaExport where
  address : Option String
  checksumAddress : Option String
  publicKey : String
  fingerprint : Option String
  curve : String
deriving DecidableEq

/-- The mldsa branch of exportPublicKeys. -/
structure MldsaExport where
  address : Option String
  publicKey : String
  fingerprint : Option String
  algorithm : String
deriving DecidableEq

/-- The object exportPublicKeys returns. -/
structure ExportedPublicKeys where
  ecdsa : Option EcdsaExport
  mldsa : Option MldsaExport
  accountIndex : Option Nat
  addressIndex : Option Nat
deriving DecidableEq

/-- exportPublicKeys: gathers addresses, public keys and fingerprints
(threading the caches) and assembles the per-algorithm exports; for a
present signer the matching public-key branch is dereferenced, and the
mldsa branch reads the algorithm from the configuration. -/
def dspExportPublicKeys (P : Primitives) (s : DSP) :
    Except String (ExportedPublicKeys × DSP) := do
  let s2 ← dspEnsureInit P s
  let addressesStep ← dspGetAddresses P s2
  let publicKeysStep ← dspGetPublicKeys P addressesStep.2
  let fingerprintsStep ← dspGetFingerprints P publicKeysStep.2
  let addresses := addressesStep.1
  let publicKeys := publicKeysStep.1
  let fingerprints := fingerprintsStep.1
  let s5 := fingerprintsStep.2
  let ecdsaPart : Option EcdsaExport ←
    match s5.ecdsaSigner with
    | none => pure none
    | some _ =>
      match publicKeys.ecdsa with
      | none => .error "TypeError: Cannot read properties of null"
      | some pk => pure (some
          { address := addresses.ethereum,
            checksumAddress := addresses.ethereumChecksum,
            publicKey := pk.compressed, fingerprint := fingerprints.ecdsa,
            curve := "secp256k1" })
  let mldsaPart : Option MldsaExport ←
    match s5.mldsaSigner with
    | none => pure none
    | some _ =>
      match publicKeys.mldsa, s5.config with
      | some pk, some cfg => pure (some
          { address := addresses.mldsa, publicKey := pk.hex,
            fingerprint := fingerprints.mldsa,
            algorithm := cfg.mldsaAlgorithm })
      | _, _ => .error "TypeError: Cannot read properties of null"
  pure ({ ecdsa := ecdsaPart, mldsa := mldsaPart,
          accountIndex := s5.accountIndex,
          addressIndex := s5.addressIndex }, s5)

/-- The configuration echo inside getInfo. -/
structure ConfigEcho where
  ecdsaEnabled : Bool
  mldsaEnabled : Bool
  defaultSignatureType : String
  mldsaAlgorithm : String
deriving DecidableEq

/-- The signers block inside getInfo. -/
structure SignersInfo where
  ecdsa : Option ECDSAInfo
  mldsa : Option MLDSAInfo
deriving DecidableEq

/-- The object getInfo returns. -/
structure ProtocolInfo where
  protocolName : String
  version : String
  initializedFlag : Bool
  config : ConfigEcho
  signers : SignersInfo
  addresses : DualAddresses
  accountIndex : Option Nat
  addressIndex : Option Nat
deriving DecidableEq

/-- getInfo: ensure initialization, gather the addresses, echo the
configuration (a read of this._config) and both signer infos. -/
def dspGetInfo (P : Primitives) (s : DSP) :
    Except String (ProtocolInfo × DSP) := do
  let s2 ← dspEnsureInit P s
  let addressesStep ← dspGetAddresses P s2
  let s3 := addressesStep.2
  let cfg ← dspConfigOf s3
  let mldsaInfo : Option MLDSAInfo ←
    match s3.mldsaSigner with
    | none => pure none
    | some sig => (mldsaGetInfo P sig).map some
  pure ({ protocolName := "DualSignatureProtocol", version := "1.0.0",
          initializedFlag := s3.initialized,
          config := { ecdsaEnabled := cfg.ecdsaEnabled,
                      mldsaEnabled := cfg.mldsaEnabled,
                      defaultSignatureType := cfg.defaultSignatureType,
                      mldsaAlgorithm := cfg.mldsaAlgorithm },
          signers := { ecdsa := s3.ecdsaSigner.map (ecdsaGetInfo P),
                       mldsa := mldsaInfo },
          addresses := addressesStep.1,
          accountIndex := s3.accountIndex,
          addressIndex := s3.addressIndex }, s3)

/-! ## Concrete instances used by witnesses and counterexamples

A small executable realization of the external primitives.  The
secp256k1 model is sound for key pairs whose private and public parts
coincide: a signature over hash h with key k is the bytes h followed by
k, and verification checks exactly that shape, so sign/verify round
trips hold at the primitive level and any failure exhibited below comes
from the embedded repository code, not from the model. -/

/-- A byte from a natural number, reduced mod 256. -/
def natByte (n : Nat) : JByte :=
  ⟨n % 256, Nat.mod_lt _ (by omega)⟩

/-- A simple byte rendering of a string (one byte per character). -/
def strBytes (s : String) : JBytes :=
  s.data.map (fun c => natByte c.toNat)

/-- A toy 32-byte-bounded digest. -/
def testDigest (l : JBytes) : JBytes :=
  natByte (l.length + 1) :: l.take 31

/-- The executable primitives instance. -/
def testP : Primitives where
  mnemonicToSeed := strBytes
  hdDerive := fun seed path =>
    { privateKey := some (natByte path.length :: seed.take 31),
      publicKey := natByte 2 :: seed.take 32,
      chainCode := List.replicate 32 (natByte 3) }
  sha256two := fun b t => t :: b.take 31
  sha3 := testDigest
  shake256 := fun b n => List.replicate n (b.headD 0)
  keccak256 := testDigest
  secpSign := fun h k => { r := 1, s := 1, recovery := 0, compact := h ++ k }
  secpVerifyBytes := fun b h pk => b == h ++ pk
  secpCompress := fun b => natByte 2 :: b.take 32
  secpDecompress := fun b => natByte 4 :: b.take 64
  utf8 := strBytes
  mlDsaKeygenAvailable := true
  mlDsaKeygen := fun seed => { secretKey := seed ++ seed,
                               publicKey := natByte 7 :: seed }

/-- The primitives with the ML-DSA key generation unavailable. -/
def noPQ : Primitives :=
  { testP with mlDsaKeygenAvailable := false }

/-- A 32-byte test seed. -/
def wSeed : JBytes := List.replicate 32 (natByte 1)

/-- A fresh DualKeyDerivation over the byte seed. -/
def wDkd : DKD := mkDKD (.bytes wSeed)

/-- The all-zero and all-one 32-byte sub-seeds of the C2 analysis. -/
def c2seedA : JBytes := List.replicate 32 0

/-- The distinct companion sub-seed. -/
def c2seedB : JBytes := List.replicate 32 1

/-- An account collaborator exposing a seed and both index methods. -/
def wAccount : Account :=
  { getSeedFn := some (some (.bytes wSeed)), seedField := none,
    getAccountIndexFn := some 0, accountIndexField := none,
    getAddressIndexFn := some 0, addressIndexField := none }

/-- An ECDSA signer whose private and public key coincide, matching the
soundness shape of the testP secp256k1 model. -/
def wEcdsaSigner : ECDSASigner :=
  { privateKey := [natByte 9], publicKey := [natByte 9], path := "m",
    accountIndex := 0, addressIndex := 0 }

/-- An ML-DSA signer with an underscore algorithm name (the only names
the size table of the signer resolves), as mkMLDSASigner would build it
from placeholder material whose flag was preserved. -/
def wMldsaSigner : MLDSASigner :=
  { privateKey := List.replicate 4 (natByte 1),
    publicKey := List.replicate 4 (natByte 2), seed := some wSeed,
    path := "m", algorithm := "ML_DSA_65", securityLevel := 3,
    accountIndex := 0, addressIndex := 0, hasRealImpl := false }

/-- A ready protocol state with both algorithms enabled. -/
def wReady : DSP :=
  { account := some wAccount, config := some {},
    keyDerivation := some wDkd, ecdsaSigner := some wEcdsaSigner,
    mldsaSigner := some wMldsaSigner, initialized := true,
    accountIndex := some 0, addressIndex := some 0,
    addressCache := [], publicKeyCache := [] }

/-- The configuration with the post-quantum algorithm disabled. -/
def wConfigNoMldsa : DSConfig := { mldsaEnabled := false }

/-- A ready protocol state with the post-quantum algorithm disabled. -/
def wReadyNoMldsa : DSP :=
  { wReady with config := some wConfigNoMldsa, mldsaSigner := none }

/-- The configuration with the classical algorithm disabled. -/
def wConfigNoEcdsa : DSConfig := { ecdsaEnabled := false }

/-- A ready protocol state with the classical algorithm disabled (the
only kind of state whose dualSign can resolve, since every ECDSA sign
call throws while packaging its result, see ecdsaSign). -/
def wReadyNoEcdsa : DSP :=
  { wReady with config := some wConfigNoEcdsa, ecdsaSigner := none }

/-- The default options object. -/
def wOptions : DSPSignOptions := {}

/-- A key-pair object with an underscore algorithm name and no
placeholder flag, as deriveMLDSAKey-style material would look if the
size-table names were reachable: the constructor accepts it. -/
def c1obj : MLDSAKeyObj :=
  { privateKey := some (List.replicate 4 1),
    publicKey := some (List.replicate 4 2), seed := some wSeed,
    path := some "m", typeName := some "ML-DSA",
    algorithm := some "ML_DSA_65", securityLevel := some 3,
    accountIndex := some 0, addressIndex := some 0,
    placeholderFlag := none }

/-- The rendered BIP-44 path of a coin type, an account index and an
address index: the template both derivation namespaces instantiate, so
the two paths differ only in the coin-type segment. -/
def coinTypePath (coinType accountIndex addressIndex : Nat) : String :=
  "m/44\x27/" ++ toString coinType ++ "\x27" ++ "/" ++
    toString accountIndex ++ "\x27/0/" ++ toString addressIndex

/-! ## Helper lemmas -/

theorem exOk_exists {α : Type} (x : Except String α) (h : exOk x = true) :
    ∃ a, x = .ok a := by
  cases x with
  | ok a => exact ⟨a, rfl⟩
  | error e => simp [exOk] at h

theorem exBind_ok {α β : Type} (a : α) (f : α → Except String β) :
    (Except.ok a >>= f) = f a := rfl

theorem exBind_error {α β : Type} (e : String)
    (f : α → Except String β) :
    ((Except.error e : Except String α) >>= f) = .error e := rfl

theorem parse_hexDigitChar :
    ∀ m : Fin 16, parseHexDigit (hexDigitChar m.val) = some m := by decide

theorem hexCharsToBytes_roundtrip (l : JBytes) :
    hexCharsToBytes ((l.map byteToHexChars).flatten) = .ok l := by
  induction l with
  | nil => rfl
  | cons b t ih =>
    have hdiv : b.val / 16 < 16 := by
      have := b.isLt
      omega
    have hmod : b.val % 16 < 16 := by omega
    have h1 := parse_hexDigitChar ⟨b.val / 16, hdiv⟩
    have h2 := parse_hexDigitChar ⟨b.val % 16, hmod⟩
    simp only [List.map_cons, List.flatten_cons, byteToHexChars,
      List.cons_append, List.nil_append]
    simp only [hexCharsToBytes, h1, h2, ih]
    simp only [Except.map, Except.ok.injEq, List.cons.injEq]
    constructor
    · apply Fin.ext
      simp only []
      omega
    · trivial

theorem jsHexToBytes_roundtrip (l : JBytes) :
    jsHexToBytes (jsBytesToHex l) = .ok l := by
  unfold jsHexToBytes jsBytesToHex
  exact hexCharsToBytes_roundtrip l

theorem buildPath_ecdsa (a i : Nat) :
    buildPath "ECDSA" a i = .ok
      ("m/44\x27/60\x27" ++ "/" ++ toString a ++ "\x27/0/" ++
        toString i) := rfl

theorem buildPath_mldsa (a i : Nat) :
    buildPath "MLDSA" a i = .ok
      ("m/44\x27/9000\x27" ++ "/" ++ toString a ++ "\x27/0/" ++
        toString i) := rfl

theorem coinTypePath_60 (a i : Nat) :
    coinTypePath 60 a i =
      "m/44\x27/60\x27" ++ "/" ++ toString a ++ "\x27/0/" ++
        toString i := by
  unfold coinTypePath
  have h : "m/44\x27/" ++ toString (60 : Nat) ++ "\x27" ++ "/" =
      "m/44\x27/60\x27" ++ "/" := by decide
  rw [h]

theorem coinTypePath_9000 (a i : Nat) :
    coinTypePath 9000 a i =
      "m/44\x27/9000\x27" ++ "/" ++ toString a ++ "\x27/0/" ++
        toString i := by
  unfold coinTypePath
  have h : "m/44\x27/" ++ toString (9000 : Nat) ++ "\x27" ++ "/" =
      "m/44\x27/9000\x27" ++ "/" := by decide
  rw [h]

/-! ## Claim theorems -/

/-- C6: for every account index a and address index i, the classical
derivation path is exactly the string m/44'/60'/a'/0/i and the
post-quantum path is exactly m/44'/9000'/a'/0/i; both are instances of
the same template coinTypePath applied to coin types 60 and 9000, so
they differ only in the coin-type segment.  getDerivationPaths is a
pure function of the two indices (it reads no instance state), as its
Lean type shows. -/
theorem c6_derivation_paths (accountIndex addressIndex : Nat) :
    getDerivationPaths accountIndex addressIndex = .ok
      { ecdsa := coinTypePath 60 accountIndex addressIndex,
        mldsa := coinTypePath 9000 accountIndex addressIndex } := by
  rw [coinTypePath_60, coinTypePath_9000]
  rfl

/-- C7: dispose is total in every protocol state (each nullable access
in the source is guarded), disposing twice is the same as disposing
once, and isInitialized reports false after any dispose. -/
theorem c7_dispose_idempotent (s : DSP) :
    dspDispose (dspDispose s) = dspDispose s ∧
    dspIsInit (dspDispose s) = false :=
  ⟨rfl, rfl⟩

/-- C2: REFUTED on the code (code bug).  With the post-quantum
primitive unavailable, the degraded mode does produce buffers of the
ML-DSA-65 sizes 4032 and 1952, but their contents are all zero bytes,
identical for the two distinct sub-seeds 0x00...00 and 0x01...01: the
sha256 expansions the catch block computes are never written into the
returned buffers, contradicting the claim that the filler bytes are a
hash expansion of the sub-seed and that distinct sub-seeds give
different placeholder key bytes (and contradicting the comment of the
source, Fill with deterministic data for testing). -/
theorem c2_placeholder_buffers_are_zero :
    (generateMLDSAFromSeed noPQ c2seedA).privateKey.length = 4032 ∧
    (generateMLDSAFromSeed noPQ c2seedA).publicKey.length = 1952 ∧
    (generateMLDSAFromSeed noPQ c2seedA).placeholder = true ∧
    (generateMLDSAFromSeed noPQ c2seedA).privateKey =
      List.replicate 4032 0 ∧
    (generateMLDSAFromSeed noPQ c2seedA).privateKey =
      (generateMLDSAFromSeed noPQ c2seedB).privateKey ∧
    (generateMLDSAFromSeed noPQ c2seedA).publicKey =
      (generateMLDSAFromSeed noPQ c2seedB).publicKey ∧
    c2seedA ≠ c2seedB := by
  have hA : generateMLDSAFromSeed noPQ c2seedA =
      { privateKey := List.replicate 4032 0,
        publicKey := List.replicate 1952 0,
        placeholder := true, genSeed := c2seedA } := rfl
  have hB : generateMLDSAFromSeed noPQ c2seedB =
      { privateKey := List.replicate 4032 0,
        publicKey := List.replicate 1952 0,
        placeholder := true, genSeed := c2seedB } := rfl
  refine ⟨?_, ?_, ?_, ?_, ?_, ?_, ?_⟩
  · rw [hA]
    simp only [List.length_replicate]
  · rw [hA]
    simp only [List.length_replicate]
  · rw [hA]
  · rw [hA]
  · rw [hA, hB]
  · rw [hA, hB]
  · decide

/-- C1: REFUTED on the code (code bug).  With the post-quantum
primitive unavailable, _generateMLDSAFromSeed does mark its result with
__placeholder true (first conjunct), but deriveMLDSAKey drops the
marker when it assembles the returned key material, so the object
handed to the downstream signer carries no placeholder flag at all
(second conjunct: the flag reads as undefined).  The signer constructed
from that material cannot even report hasRealImplementation() = false:
on this material the MLDSASigner constructor throws, because its size
table ML_DSA_LEVELS is keyed by underscore names (ML_DSA_65) while the
material says ML-DSA-65 (third conjunct).  And on material the
constructor does accept, an absent flag makes the signer report
hasRealImplementation() = true (fourth and fifth conjuncts).
Placeholder material therefore flows on indistinguishable from real
material, against the claim. -/
theorem c1_placeholder_flag_dropped :
    (∀ seed : JBytes,
      (generateMLDSAFromSeed noPQ seed).placeholder = true) ∧
    (deriveMLDSAKey noPQ wDkd 0 0).map
      (fun p => p.1.placeholderFlag) = .ok none ∧
    (deriveMLDSAKey noPQ wDkd 0 0).map
      (fun p => mkMLDSASigner p.1) =
      .ok (.error "Unknown ML-DSA algorithm: ML-DSA-65") ∧
    c1obj.placeholderFlag = none ∧
    (mkMLDSASigner c1obj).map mldsaHasRealImplementation =
      .ok true := by
  exact ⟨fun seed => rfl, rfl, rfl, rfl, rfl⟩

theorem dkdInit_self (P : Primitives) (d d2 : DKD)
    (h : dkdInit P d = .ok d2) : dkdInit P d2 = .ok d2 := by
  unfold dkdInit at h ⊢
  split at h
  · simp only [Except.ok.injEq] at h
    subst h
    simp_all
  · split at h
    · simp only [Except.ok.injEq] at h
      subst h
      simp
    · simp only [Except.ok.injEq] at h
      subst h
      simp
    · simp at h

theorem deriveECDSAKey_again (P : Primitives) (d : DKD) (a i : Nat)
    (k : ECDSAKeyMaterial) (d2 : DKD)
    (h : deriveECDSAKey P d a i = .ok (k, d2)) :
    deriveECDSAKey P d2 a i = .ok (k, d2) := by
  unfold deriveECDSAKey at h ⊢
  cases hd : dkdInit P d with
  | error e => rw [hd, exBind_error] at h; simp at h
  | ok dI =>
    rw [hd, exBind_ok, buildPath_ecdsa, exBind_ok] at h
    split at h
    · simp at h
    · rename_i mk heq
      split at h
      · simp at h
      · rename_i priv heq2
        simp only [Except.ok.injEq, Prod.mk.injEq] at h
        obtain ⟨hk, hd2⟩ := h
        subst hd2
        rw [dkdInit_self P d dI hd, exBind_ok, buildPath_ecdsa,
          exBind_ok]
        simp only [heq, heq2, hk]

theorem deriveMLDSAKey_again (P : Primitives) (d : DKD) (a i : Nat)
    (k : MLDSAKeyObj) (d2 : DKD)
    (h : deriveMLDSAKey P d a i = .ok (k, d2)) :
    deriveMLDSAKey P d2 a i = .ok (k, d2) := by
  unfold deriveMLDSAKey at h ⊢
  cases hd : dkdInit P d with
  | error e => rw [hd, exBind_error] at h; simp at h
  | ok dI =>
    rw [hd, exBind_ok, buildPath_mldsa, exBind_ok] at h
    split at h
    · simp at h
    · rename_i mk heq
      split at h
      · simp at h
      · rename_i priv heq2
        simp only [Except.ok.injEq, Prod.mk.injEq] at h
        obtain ⟨hk, hd2⟩ := h
        subst hd2
        rw [dkdInit_self P d dI hd, exBind_ok, buildPath_mldsa,
          exBind_ok]
        simp only [heq, heq2, hk]

/-- C5: derivation is deterministic as a two-run equality: a second
call on the state a successful first call returns yields exactly the
first result again, so the private key, public key and chain code of
the classical material and the 32-byte sub-seed of the post-quantum
material are byte-identical across repeated calls. -/
theorem c5_determinism :
    (∀ (P : Primitives) (d : DKD) (a i : Nat) (k : ECDSAKeyMaterial)
       (d2 : DKD), deriveECDSAKey P d a i = .ok (k, d2) →
       ∃ k2 d3, deriveECDSAKey P d2 a i = .ok (k2, d3) ∧
         k2.privateKey = k.privateKey ∧ k2.publicKey = k.publicKey ∧
         k2.chainCode = k.chainCode) ∧
    (∀ (P : Primitives) (d : DKD) (a i : Nat) (k : MLDSAKeyObj)
       (d2 : DKD), deriveMLDSAKey P d a i = .ok (k, d2) →
       ∃ k2 d3, deriveMLDSAKey P d2 a i = .ok (k2, d3) ∧
         k2.seed = k.seed) := by
  constructor
  · intro P d a i k d2 h
    exact ⟨k, d2, deriveECDSAKey_again P d a i k d2 h, rfl, rfl, rfl⟩
  · intro P d a i k d2 h
    exact ⟨k, d2, deriveMLDSAKey_again P d a i k d2 h, rfl⟩

/-- C5 witness: the two-run equality applied to a concrete derivation
over the executable primitives. -/
theorem c5_determinism_witness :
    (∃ k d2 k2 d3,
      deriveECDSAKey testP wDkd 0 0 = .ok (k, d2) ∧
      deriveECDSAKey testP d2 0 0 = .ok (k2, d3) ∧
      k2.privateKey = k.privateKey ∧ k2.publicKey = k.publicKey ∧
      k2.chainCode = k.chainCode) ∧
    (∃ k d2 k2 d3,
      deriveMLDSAKey testP wDkd 0 0 = .ok (k, d2) ∧
      deriveMLDSAKey testP d2 0 0 = .ok (k2, d3) ∧
      k2.seed = k.seed) := by
  constructor
  · obtain ⟨p, hp⟩ := exOk_exists (deriveECDSAKey testP wDkd 0 0)
      (by decide)
    obtain ⟨k2, d3, h2, e1, e2, e3⟩ :=
      c5_determinism.1 testP wDkd 0 0 p.1 p.2 hp
    exact ⟨p.1, p.2, k2, d3, hp, h2, e1, e2, e3⟩
  · obtain ⟨p, hp⟩ := exOk_exists (deriveMLDSAKey testP wDkd 0 0)
      (by decide)
    obtain ⟨k2, d3, h2, e1⟩ :=
      c5_determinism.2 testP wDkd 0 0 p.1 p.2 hp
    exact ⟨p.1, p.2, k2, d3, hp, h2, e1⟩

theorem exBind_pure {α β : Type} (a : α) (f : α → Except String β) :
    ((pure a : Except String α) >>= f) = f a := rfl


theorem exBind_eq_ok {α β : Type} {x : Except String α}
    {f : α → Except String β} {b : β} (h : (x >>= f) = .ok b) :
    ∃ a, x = .ok a ∧ f a = .ok b := by
  cases x with
  | ok a => exact ⟨a, rfl, h⟩
  | error e => simp [exBind_error] at h

theorem exMap_eq_ok {α β : Type} {x : Except String α} {f : α → β}
    {b : β} (h : (f <$> x) = .ok b) : ∃ a, x = .ok a ∧ f a = b := by
  cases x with
  | ok a =>
    refine ⟨a, rfl, ?_⟩
    simp only [Except.map_ok] at h
    exact (Except.ok.injEq _ _).mp h
  | error e => simp [Except.map_error] at h

theorem dspConfigOf_ok {s : DSP} {cfg : DSConfig}
    (h : dspConfigOf s = .ok cfg) : s.config = some cfg := by
  unfold dspConfigOf at h
  cases hc : s.config with
  | some c => rw [hc] at h; simp only [Except.ok.injEq] at h; rw [h]
  | none => rw [hc] at h; simp at h

theorem exPure_ok {α : Type} (a : α) :
    (pure a : Except String α) = .ok a := rfl

/-- C4: whenever dualSign returns a result, its ecdsa branch is null
exactly when the classical algorithm is disabled in the configuration
and its mldsa branch is null exactly when the post-quantum algorithm is
disabled; a signing failure of an enabled branch makes the whole call
throw instead (the bind structure admits no null from a failure).  And
on an initialized protocol whose configuration has mldsaEnabled false,
a direct signWithMLDSA call throws the disabled-algorithm error. -/
theorem c4_dual_sign_null_iff_disabled :
    (∀ (P : Primitives) (s : DSP) (data : JSData)
       (options : DSPSignOptions) (r : DualSignResult) (s2 : DSP),
       dspDualSign P s data options = .ok (r, s2) →
       ∃ cfg, s2.config = some cfg ∧
         (r.ecdsa = none ↔ cfg.ecdsaEnabled = false) ∧
         (r.mldsa = none ↔ cfg.mldsaEnabled = false)) ∧
    (∀ (P : Primitives) (s : DSP) (data : JSData)
       (options : DSPSignOptions) (cfg : DSConfig),
       s.config = some cfg → s.initialized = true →
       cfg.mldsaEnabled = false →
       dspSignWithMLDSA P s data options =
         .error "ML-DSA signing is not enabled") := by
  constructor
  · intro P s data options r s2 h
    unfold dspDualSign at h
    obtain ⟨sE, hE, h⟩ := exBind_eq_ok h
    obtain ⟨cfg, hcfgE, h⟩ := exBind_eq_ok h
    have hcfg := dspConfigOf_ok hcfgE
    refine ⟨cfg, ?_⟩
    cases hec : cfg.ecdsaEnabled <;> cases hml : cfg.mldsaEnabled <;>
      simp only [hec, hml, Bool.false_eq_true, if_false, if_true] at h
    · simp only [exBind_pure, exBind_ok, exPure_ok, Except.ok.injEq,
        Prod.mk.injEq] at h
      obtain ⟨hr, hs2⟩ := h
      subst hs2
      rw [← hr]
      simp [hcfg]
    · simp only [exBind_pure, exPure_ok, exBind_ok] at h
      obtain ⟨pm, hpm, h⟩ := exBind_eq_ok h
      simp only [exBind_pure, exBind_ok, exPure_ok, Except.ok.injEq,
        Prod.mk.injEq] at h
      obtain ⟨hr, hs2⟩ := h
      subst hs2
      rw [← hr]
      simp [hcfg]
    · simp only [exBind_pure, exPure_ok, exBind_ok] at h
      obtain ⟨pe, hpe, h⟩ := exBind_eq_ok h
      simp only [exBind_pure, exBind_ok, exPure_ok, Except.ok.injEq,
        Prod.mk.injEq] at h
      obtain ⟨hr, hs2⟩ := h
      subst hs2
      rw [← hr]
      simp [hcfg]
    · simp only [exBind_pure, exPure_ok, exBind_ok] at h
      obtain ⟨pe, hpe, h⟩ := exBind_eq_ok h
      obtain ⟨pm, hpm, h⟩ := exBind_eq_ok h
      simp only [exBind_pure, exBind_ok, exPure_ok, Except.ok.injEq,
        Prod.mk.injEq] at h
      obtain ⟨hr, hs2⟩ := h
      subst hs2
      rw [← hr]
      simp [hcfg]
  · intro P s data options cfg hcfg hinit hml
    unfold dspSignWithMLDSA
    have he : dspEnsureInit P s = .ok s := by
      unfold dspEnsureInit
      simp [hinit]
    have hco : dspConfigOf s = .ok cfg := by
      unfold dspConfigOf
      rw [hcfg]
    rw [he, exBind_ok]
    rw [hco, exBind_ok]
    cases hms : s.mldsaSigner <;> simp [hml, hms]

/-- C4 witness: a dual sign that resolves (classical disabled, so its
branch is null by configuration, and the post-quantum branch signs),
with its null-iff-disabled conclusion, and the disabled-algorithm error
on a ready state whose configuration disables ML-DSA. -/
theorem c4_dual_sign_witness :
    (∃ r s2 cfg,
      dspDualSign testP wReadyNoEcdsa (.str "t") wOptions =
        .ok (r, s2) ∧
      s2.config = some cfg ∧
      (r.ecdsa = none ↔ cfg.ecdsaEnabled = false) ∧
      (r.mldsa = none ↔ cfg.mldsaEnabled = false)) ∧
    dspSignWithMLDSA testP wReadyNoMldsa (.str "t") wOptions =
      .error "ML-DSA signing is not enabled" := by
  constructor
  · obtain ⟨p, hp⟩ :=
      exOk_exists (dspDualSign testP wReadyNoEcdsa (.str "t") wOptions)
        (by decide)
    obtain ⟨cfg, hcfg, h1, h2⟩ :=
      c4_dual_sign_null_iff_disabled.1 testP wReadyNoEcdsa (.str "t")
        wOptions p.1 p.2 hp
    exact ⟨p.1, p.2, cfg, hp, hcfg, h1, h2⟩
  · exact c4_dual_sign_null_iff_disabled.2 testP wReadyNoMldsa
      (.str "t") wOptions wConfigNoMldsa rfl rfl rfl

/-- C9: disposal is absorbing.  dispose nulls the configuration object,
and the auto-initialization check of _ensureInitialized reads the
autoInitialize property of that null configuration, so every
signing, verification, address, key-query or info call on a disposed
protocol throws a TypeError (even with autoInitialize true), the sign
dispatcher throws for every type option, a renewed initialize() call
throws while reading the null configuration and so cannot transition
the protocol back, and isInitialized stays false. -/
theorem c9_disposed_is_absorbing (P : Primitives) (s : DSP)
    (data : JSData) (options : DSPSignOptions) (esig : ECDSAVerifySig)
    (msig : MLDSAVerifySig) (pk : Option JBytes) :
    exThrows (dspSignWithECDSA P (dspDispose s) data options) = true ∧
    exThrows (dspSignWithMLDSA P (dspDispose s) data options) = true ∧
    exThrows (dspDualSign P (dspDispose s) data options) = true ∧
    exThrows (dspSign P (dspDispose s) data options) = true ∧
    exThrows (dspVerifyECDSA P (dspDispose s) data esig pk) = true ∧
    exThrows (dspVerifyMLDSA P (dspDispose s) data msig pk) = true ∧
    exThrows (dspGetPublicKeys P (dspDispose s)) = true ∧
    exThrows (dspGetAddresses P (dspDispose s)) = true ∧
    exThrows (dspGetFingerprints P (dspDispose s)) = true ∧
    exThrows (dspExportPublicKeys P (dspDispose s)) = true ∧
    exThrows (dspGetInfo P (dspDispose s)) = true ∧
    exThrows (dspInitCall P (dspDispose s)) = true ∧
    dspIsInit (dspDispose s) = false := by
  refine ⟨rfl, rfl, rfl, ?_, rfl, rfl, rfl, rfl, rfl, rfl, rfl, rfl,
    rfl⟩
  unfold dspSign
  cases ht : options.typeOpt with
  | none => rfl
  | some t =>
    by_cases h1 : t = "ecdsa"
    · subst h1
      rfl
    · by_cases h2 : t = "mldsa"
      · subst h2
        rfl
      · by_cases h3 : t = "dual"
        · subst h3
          rfl
        · simp only [exBind_pure, beq_iff_eq, h1, h2, h3, if_false]
          rfl

/-- C8: verification never throws on either signer — both verify
methods are total Bool functions because the source wraps the whole
body in try/catch (tryCatchFalse) — and every malformed signature or
data shape yields false: a null signature (whose property read throws),
a non-object non-string signature, an object signature the secp256k1
library cannot parse, an object without a signature property, a hex
string with invalid characters, and data that cannot be serialized. -/
theorem c8_verify_never_throws_malformed_false :
    (∀ (P : Primitives) (s : ECDSASigner) (data : JSData)
       (pk : Option JBytes),
       ecdsaVerify P s data .nullv pk = false ∧
       ecdsaVerify P s data .other pk = false ∧
       (∀ o, ecdsaVerify P s data (.obj o) pk = false) ∧
       (∀ st e, jsHexToBytes st = .error e →
         ecdsaVerify P s data (.str st) pk = false) ∧
       (∀ sig e, dataToBytes P data = .error e →
         ecdsaVerify P s data sig pk = false)) ∧
    (∀ (P : Primitives) (s : MLDSASigner) (data : JSData)
       (pk : Option JBytes),
       mldsaVerify P s data .nullv pk = false ∧
       mldsaVerify P s data .other pk = false ∧
       mldsaVerify P s data .objNoSig pk = false ∧
       (∀ st e, jsHexToBytes st = .error e →
         mldsaVerify P s data (.str st) pk = false) ∧
       (∀ sig e, dataToBytes P data = .error e →
         mldsaVerify P s data sig pk = false)) := by
  constructor
  · intro P s data pk
    refine ⟨?_, ?_, ?_, ?_, ?_⟩
    · unfold ecdsaVerify ecdsaVerifyBody
      cases hm : dataToBytes P data with
      | error e => simp only [hm, exBind_error]; rfl
      | ok m => simp only [hm, exBind_ok]; rfl
    · unfold ecdsaVerify ecdsaVerifyBody
      cases hm : dataToBytes P data with
      | error e => simp only [hm, exBind_error]; rfl
      | ok m => simp only [hm, exBind_ok]; rfl
    · intro o
      unfold ecdsaVerify ecdsaVerifyBody
      cases hm : dataToBytes P data with
      | error e => simp only [hm, exBind_error]; rfl
      | ok m => simp only [hm, exBind_ok]; rfl
    · intro st e hhex
      unfold ecdsaVerify ecdsaVerifyBody
      cases hm : dataToBytes P data with
      | error e2 => simp only [hm, exBind_error]; rfl
      | ok m => simp only [hm, exBind_ok, hhex, exBind_error]; rfl
    · intro sig e hdata
      unfold ecdsaVerify ecdsaVerifyBody
      simp only [hdata, exBind_error]
      rfl
  · intro P s data pk
    refine ⟨?_, ?_, ?_, ?_, ?_⟩
    · unfold mldsaVerify mldsaVerifyBody
      cases hm : dataToBytes P data with
      | error e => simp only [hm, exBind_error]; rfl
      | ok m => simp only [hm, exBind_ok]; rfl
    · unfold mldsaVerify mldsaVerifyBody
      cases hm : dataToBytes P data with
      | error e => simp only [hm, exBind_error]; rfl
      | ok m => simp only [hm, exBind_ok]; rfl
    · unfold mldsaVerify mldsaVerifyBody
      cases hm : dataToBytes P data with
      | error e => simp only [hm, exBind_error]; rfl
      | ok m => simp only [hm, exBind_ok]; rfl
    · intro st e hhex
      unfold mldsaVerify mldsaVerifyBody
      cases hm : dataToBytes P data with
      | error e2 => simp only [hm, exBind_error]; rfl
      | ok m => simp only [hm, exBind_ok, hhex]; rfl
    · intro sig e hdata
      unfold mldsaVerify mldsaVerifyBody
      simp only [hdata, exBind_error]
      rfl

/-- C8 witness: the malformed shapes evaluated on both concrete
signers. -/
theorem c8_verify_witness :
    ecdsaVerify testP wEcdsaSigner (.str "hello") .nullv none = false ∧
    ecdsaVerify testP wEcdsaSigner (.str "hello") .other none = false ∧
    ecdsaVerify testP wEcdsaSigner (.str "hello")
      (.obj ⟨"r", "s", 27, "sig", "sig", "mh", 0⟩) none = false ∧
    ecdsaVerify testP wEcdsaSigner (.str "hello") (.str "zz") none =
      false ∧
    ecdsaVerify testP wEcdsaSigner .other (.bytes []) none = false ∧
    mldsaVerify testP wMldsaSigner (.str "hello") .nullv none = false ∧
    mldsaVerify testP wMldsaSigner (.str "hello") .objNoSig none =
      false ∧
    mldsaVerify testP wMldsaSigner (.str "hello") (.str "zz") none =
      false ∧
    mldsaVerify testP wMldsaSigner .other (.bytes []) none = false := by
  have he := c8_verify_never_throws_malformed_false.1 testP
    wEcdsaSigner (.str "hello") none
  have he2 := c8_verify_never_throws_malformed_false.1 testP
    wEcdsaSigner .other none
  have hm := c8_verify_never_throws_malformed_false.2 testP
    wMldsaSigner (.str "hello") none
  have hm2 := c8_verify_never_throws_malformed_false.2 testP
    wMldsaSigner .other none
  refine ⟨he.1, he.2.1, he.2.2.1 _, ?_, ?_, hm.1, hm.2.2.1, ?_, ?_⟩
  · exact he.2.2.2.1 "zz" "invalid hex character" rfl
  · exact he2.2.2.2.2 (.bytes []) "Unsupported data type for signing"
      rfl
  · exact hm.2.2.2.1 "zz" "invalid hex character" rfl
  · exact hm2.2.2.2.2 (.bytes []) "Unsupported data type for signing"
      rfl

theorem ecdsaVerify_obj_false (P : Primitives) (s : ECDSASigner)
    (data : JSData) (o : ECDSASignResult) (pk : Option JBytes) :
    ecdsaVerify P s data (.obj o) pk = false := by
  unfold ecdsaVerify ecdsaVerifyBody
  cases hm : dataToBytes P data with
  | error e => simp only [hm, exBind_error]; rfl
  | ok m => simp only [hm, exBind_ok]; rfl

/-- C3: REFUTED on the code for the classical signer (code bug).
Every ECDSASigner.sign call that survives serialization performs the
hashing and the primitive signing but then throws Uint8Array expected
while packaging the r component of the result (bytesToHex applied to a
bigint hex string, rejected by the pinned hashes library), so sign
never returns a signature and verify(data, sign(data)) can never be
evaluated, let alone return true (first and second conjuncts).  This
contradicts the repository's own test script, which awaits sign and
logs the r component of the expected result.  For the post-quantum
signer the round trip does hold: the placeholder signature has exactly
the expected byte length and verify accepts it (third conjunct). -/
theorem mldsaSign_verify_roundTrip (P : Primitives)
    (s : MLDSASigner) (data : JSData) (sig : MLDSASigResult)
    (hlen : ∀ b n, (P.shake256 b n).length = n)
    (hsig : mldsaSign P s data {} = .ok sig) :
    mldsaVerify P s data (.objWithBytes sig.signature) none = true := by
  unfold mldsaSign at hsig
  cases hm : dataToBytes P data with
  | error e => rw [hm, exBind_error] at hsig; simp at hsig
  | ok m =>
    simp only [hm, exBind_ok] at hsig
    have hsig2 : mldsaSignPlaceholder P s m [] true = .ok sig := by
      cases hri : s.hasRealImpl with
      | false => simpa [hri] using hsig
      | true => simpa [hri, mldsaSignReal] using hsig
    unfold mldsaSignPlaceholder at hsig2
    cases hlv : mlDsaLevels s.algorithm with
    | none => rw [hlv] at hsig2; simp at hsig2
    | some lv =>
      simp only [hlv, Except.ok.injEq] at hsig2
      subst hsig2
      unfold mldsaVerify mldsaVerifyBody
      simp only [hm, exBind_ok, exBind_pure, hlv]
      simp [tryCatchFalse, mldsaSigBytesLen, hlen, exPure_ok]

theorem c3_ecdsa_sign_always_throws :
    (∀ (P : Primitives) (s : ECDSASigner) (data : JSData)
       (options : ECDSASignOptions),
       exThrows (ecdsaSign P s data options) = true) ∧
    ecdsaSign testP wEcdsaSigner (.str "test message") {} =
      .error "Uint8Array expected" ∧
    (mldsaSign testP wMldsaSigner (.str "test message") {}).map
      (fun sig => mldsaVerify testP wMldsaSigner (.str "test message")
        (.objWithBytes sig.signature) none) = .ok true := by
  refine ⟨?_, by rfl, ?_⟩
  · intro P s data options
    unfold ecdsaSign
    cases hm : dataToBytes P data with
    | error e => simp only [hm, exBind_error]; rfl
    | ok m => simp only [hm, exBind_ok]; rfl
  · obtain ⟨sig, hsig⟩ := exOk_exists
      (mldsaSign testP wMldsaSigner (.str "test message") {})
      (by decide)
    rw [hsig]
    simp only [Except.map]
    rw [mldsaSign_verify_roundTrip testP wMldsaSigner
      (.str "test message") sig (by intro b n; simp [testP]) hsig]

/-- C10 counterexample: the claim describes a signature produced by
signMessage being checked by verify against a different hash; at this
concrete message the code produces no signature at all — signMessage
throws Uint8Array expected while packaging the result, before anything
reaches verify. -/
theorem c10_signmessage_never_returns :
    ecdsaSignMessage testP wEcdsaSigner "test message" =
      .error "Uint8Array expected" := by rfl

/-- C10 (amended): ECDSASigner.verify always recomputes keccak256 of
the raw serialized data — for any byte signature it calls the
secp256k1 primitive on exactly that hash — and never applies the
EIP-191 personal-message tag (first conjunct); the tagged byte string
signMessage hashes and signs is always a strictly different preimage
than the raw bytes verify hashes (second conjunct); but the result
packaging of sign throws on every call (third conjunct), so signMessage
never returns a signature and the signMessage/verify round trip on the
unprefixed message cannot hold. -/
theorem c10_verify_never_applies_prefix :
    (∀ (P : Primitives) (s : ECDSASigner) (data : JSData) (m : JBytes)
       (b : JBytes) (pk : Option JBytes),
       dataToBytes P data = .ok m →
       ecdsaVerify P s data (.bytes b) pk =
         P.secpVerifyBytes b (P.keccak256 m) (pk.getD s.publicKey)) ∧
    (∀ (P : Primitives) (m : JBytes),
       P.utf8 (ethPersonalTag m.length) ≠ [] →
       P.utf8 (ethPersonalTag m.length) ++ m ≠ m) ∧
    (∀ (P : Primitives) (s : ECDSASigner) (msg : String),
       exThrows (ecdsaSignMessage P s msg) = true) := by
  refine ⟨?_, ?_, ?_⟩
  · intro P s data m b pk hm
    unfold ecdsaVerify ecdsaVerifyBody
    simp only [hm, exBind_ok, exBind_pure]
    simp [tryCatchFalse, exPure_ok]
  · intro P m hne heq
    have hlen := congrArg List.length heq
    simp only [List.length_append] at hlen
    have h0 : (P.utf8 (ethPersonalTag m.length)).length = 0 := by
      omega
    exact hne (List.eq_nil_of_length_eq_zero h0)
  · intro P s msg
    unfold ecdsaSignMessage ecdsaSign
    cases hm : dataToBytes P (.str msg) with
    | error e => simp only [hm, exBind_error]; rfl
    | ok m => simp only [hm, exBind_ok]; rfl

/-- C10 witness: the three amended conjuncts applied at concrete
inputs over the executable primitives. -/
theorem c10_verify_never_applies_prefix_witness :
    ecdsaVerify testP wEcdsaSigner (.str "hi") (.bytes (strBytes "zz"))
      none =
      testP.secpVerifyBytes (strBytes "zz")
        (testP.keccak256 (strBytes "hi"))
        ((none : Option JBytes).getD wEcdsaSigner.publicKey) ∧
    testP.utf8 (ethPersonalTag (strBytes "hi").length) ++
      strBytes "hi" ≠ strBytes "hi" ∧
    exThrows (ecdsaSignMessage testP wEcdsaSigner "hi") = true := by
  refine ⟨?_, ?_, ?_⟩
  · exact c10_verify_never_applies_prefix.1 testP wEcdsaSigner
      (.str "hi") (strBytes "hi") (strBytes "zz") none rfl
  · exact c10_verify_never_applies_prefix.2.1 testP (strBytes "hi")
      (by decide)
  · exact c10_verify_never_applies_prefix.2.2 testP wEcdsaSigner "hi"
